import Mathlib

/-!
Verification of the ingestion-validation-aggregation pipeline of the
Advantage-v1 marketing-analytics app.

The embedding covers:
* `parseCSV` (src/unnamed/part_002, lines 15-165): CSV schema validation,
  error accumulation, and 3-day shot aggregation for one funnel stage;
* `submitStage` (src/unnamed/part_002, lines 150-160): replace-per-stage
  merge of shot sequences into the accumulated store;
* `calculateMetrics` (src/App.tsx, lines 18-86): reduction of the merged
  shot sequence into portfolio-level `AggregatedMetrics`.

Numbers are modelled as exact rationals (ℚ); JavaScript strings as Lean
`String`, with the JS built-ins (`split`, `trim`, `toUpperCase`,
`toLowerCase`, `parseFloat`, `Array.join`) re-implemented below on
character lists so that every definition evaluates inside the kernel.
-/

-- Batteries marks the rational-arithmetic primitives irreducible, which
-- blocks `decide` on concrete pipeline runs; restore default reducibility.
attribute [local semireducible] Rat.add Rat.mul Rat.inv Rat.sub

set_option maxRecDepth 8192

namespace Advantage

/-! ### JavaScript string built-ins, modelled on character lists -/

/-- Splits a character list at every occurrence of `sep`; like JS
`String.prototype.split` it yields `n+1` fields for `n` separators, and a
single (possibly empty) field for a separator-free input. -/
def splitChar (sep : Char) : List Char → List (List Char)
  | [] => [[]]
  | c :: rest =>
    let r := splitChar sep rest
    if c = sep then [] :: r
    else
      match r with
      | [] => [[c]]
      | f :: fs => (c :: f) :: fs

/-- JS `s.split(sep)` for a one-character separator. -/
def jsSplit (sep : Char) (s : String) : List String :=
  (splitChar sep s.data).map List.asString

/-- JS `s.trim()`: strips whitespace from both ends. -/
def jsTrim (s : String) : String :=
  (((s.data.dropWhile Char.isWhitespace).reverse.dropWhile Char.isWhitespace).reverse).asString

/-- JS `s.toUpperCase()` (ASCII range, which is all the code compares). -/
def jsToUpper (s : String) : String := (s.data.map Char.toUpper).asString

/-- JS `s.toLowerCase()` (ASCII range, which is all the code compares). -/
def jsToLower (s : String) : String := (s.data.map Char.toLower).asString

/-- JS `m.charAt(0).toUpperCase() + m.slice(1)`. -/
def capitalizeFirst (m : String) : String :=
  match m.data with
  | [] => ""
  | c :: rest => (c.toUpper :: rest).asString

/-- JS `Array.prototype.join(sep)`. -/
def joinSep (sep : String) : List String → String
  | [] => ""
  | [a] => a
  | a :: rest => a ++ sep ++ joinSep sep rest

/-- Numeric value of a digit list, most significant first. -/
def digitsVal (cs : List Char) : ℕ :=
  cs.foldl (fun a c => a * 10 + (c.toNat - 48)) 0

/-- Models JS `parseFloat` on the decimal-literal fragment the pipeline
feeds it: optional leading whitespace, optional sign, integer digits,
optional fractional part, ignoring any trailing garbage (prefix
semantics). `none` stands for `NaN`. Exponent notation and `Infinity`
are not modelled; no input used by the repository's CSV format produces
them. -/
def jsParseFloat (s : String) : Option ℚ :=
  let cs := s.data.dropWhile Char.isWhitespace
  let signAndRest : ℚ × List Char :=
    match cs with
    | '-' :: r => (-1, r)
    | '+' :: r => (1, r)
    | _ => (1, cs)
  let sign := signAndRest.1
  let cs1 := signAndRest.2
  let intPart := cs1.takeWhile Char.isDigit
  let rest := cs1.dropWhile Char.isDigit
  let fracPart :=
    match rest with
    | '.' :: r => r.takeWhile Char.isDigit
    | _ => []
  if intPart = [] ∧ fracPart = [] then none
  else some (sign * ((digitsVal intPart : ℚ) +
    (digitsVal fracPart : ℚ) / ((10 : ℚ) ^ fracPart.length)))

/-! ### Data model (src/unnamed/part_004) -/

/-- Funnel stage tag; `FunnelStageContext` in src/unnamed/part_004. -/
inductive FunnelStageContext where
  | TOF
  | MOF
  | BOF
deriving DecidableEq, Repr

/-- String rendering of a stage tag, as used in the template literal
`«stage»-Shot «n»` of src/unnamed/part_002 line 125. -/
def FunnelStageContext.name : FunnelStageContext → String
  | .TOF => "TOF"
  | .MOF => "MOF"
  | .BOF => "BOF"

/-- One validated day of data (`DailyPerformanceEntry`). The source
stores metrics as dynamically string-keyed numeric fields and reads
absent keys through `?? 0`; the model therefore carries a total function
from metric name to value, with `0` at every key the parser never set. -/
structure DailyPerformanceEntry where
  date : String
  metrics : String → ℚ

/-- One aggregated 3-day window (`ShotAnalysisEntry`). `numDaysInShot`
is optional because `calculateMetrics` (src/App.tsx line 37) reads it
through `?? 3`, defaulting a shot that lacks the field to 3 days; the
parser always sets it. Metric fields are a total function for the same
reason as in `DailyPerformanceEntry`. -/
structure ShotAnalysisEntry where
  shotId : String
  startDate : String
  endDate : String
  numDaysInShot : Option ℚ
  funnelStage : FunnelStageContext
  metrics : String → ℚ

/-- Entry used to read `daysInShot[0]` / `daysInShot[length-1]` in the
model; the source only indexes non-empty windows, so it never shows. -/
def emptyEntry : DailyPerformanceEntry := ⟨"", fun _ => 0⟩

/-! ### Schema Validator (src/unnamed/part_002, `parseCSV` lines 15-117) -/

/-- Single quote, written as an escape so the character never appears
bare in the source text. -/
def sq : String := "\x27"

/-- Wraps a string in single quotes, as the source's template literals do. -/
def quoteSq (s : String) : String := sq ++ s ++ sq

/-- The required metric column names (lines 33-36), in insertion order
of the source's `Set` literal. -/
def requiredMetricNames : List String :=
  ["cpm", "ctr", "reach", "link clicks", "landing page views", "add to carts",
   "initiate checkout", "conversions", "cpa", "roas", "ad spent", "ad frequency"]

/-- Required names absent from the header (case-insensitively), line 39. -/
def missingRequiredColumns (metricNames : List String) : List String :=
  let present := metricNames.map jsToLower
  requiredMetricNames.filter (fun req => !(present.contains req))

/-- The missing-columns message pushed before row processing (lines 40-42):
a single entry of `validationErrors` when anything is missing. -/
def headerErrors (metricNames : List String) : List String :=
  let missing := missingRequiredColumns metricNames
  if missing.length > 0 then
    ["Missing required columns in header: " ++
      joinSep (", ") (missing.map capitalizeFirst) ++ ". Please ensure they are present."]
  else []

/-- Type-error message of line 65. -/
def typeErrMsg (dateStr headerName valueStr : String) : String :=
  "Date " ++ dateStr ++ ", Column " ++ quoteSq headerName ++
    ": Expected a number, but received " ++ quoteSq valueStr ++ "."

/-- The per-metric loop of lines 58-70: walks `metricNames` with the
column index, parsing `parts[colIndex + 1]`. A parsable field sets the
metric and marks the row valid; a non-empty unparsable field records a
type error and defaults to 0; an empty field silently defaults to 0.
Returns the metric assignment, the recorded errors, and the
`rowHasValidMetricData` flag. -/
def parseRowMetricsGo (dateStr : String) (parts : List String) :
    List String → ℕ → (String → ℚ) → List String → Bool →
      ((String → ℚ) × List String × Bool)
  | [], _, f, errs, hv => (f, errs, hv)
  | headerName :: rest, colIndex, f, errs, hv =>
    let valueStr := parts.getD (colIndex + 1) ""
    match jsParseFloat valueStr with
    | some v =>
      parseRowMetricsGo dateStr parts rest (colIndex + 1)
        (Function.update f headerName v) errs true
    | none =>
      if valueStr ≠ "" then
        parseRowMetricsGo dateStr parts rest (colIndex + 1)
          (Function.update f headerName 0) (errs ++ [typeErrMsg dateStr headerName valueStr]) hv
      else
        parseRowMetricsGo dateStr parts rest (colIndex + 1)
          (Function.update f headerName 0) errs hv

/-- Processing of one data line (lines 44-75). `rowIndex` is the 0-based
index into the data lines, so user-facing row numbers are `rowIndex + 2`.
Returns the produced entry, if any, and the errors recorded for the row:
* an all-empty line is skipped silently (line 46);
* a column-count mismatch records one error and drops the row (lines 48-51);
* otherwise the entry is kept only when `rowHasValidMetricData` (line 72). -/
def parseDataRow (rawHeaderCount : ℕ) (metricNames : List String)
    (rowIndex : ℕ) (line : String) :
    Option DailyPerformanceEntry × List String :=
  let parts := (jsSplit ',' line).map jsTrim
  if parts.length = 0 ∨ (∀ p ∈ parts, p = "") then (none, [])
  else if parts.length ≠ rawHeaderCount then
    (none, ["Row " ++ toString (rowIndex + 2) ++ ": Mismatched number of columns. Expected " ++
      toString rawHeaderCount ++ ", got " ++ toString parts.length ++ "."])
  else
    let dateStr := parts.headD ""
    let res := parseRowMetricsGo dateStr parts metricNames 0 (fun _ => 0) [] false
    (if res.2.2 then some ⟨dateStr, res.1⟩ else none, res.2.1)

/-- The `lines.slice(1).forEach` loop (lines 44-75): accumulates valid
entries and recorded errors across all data lines, in input order. -/
def processRows (rawHeaderCount : ℕ) (metricNames : List String) :
    List String → ℕ → List DailyPerformanceEntry × List String
  | [], _ => ([], [])
  | line :: rest, rowIndex =>
    let this := parseDataRow rawHeaderCount metricNames rowIndex line
    let later := processRows rawHeaderCount metricNames rest (rowIndex + 1)
    (this.1.toList ++ later.1, this.2 ++ later.2)

/-- The cross-metric plausibility checks of lines 78-105, for one day,
in the source's push order. Each metric is read at its exact key, with
absent keys defaulting to 0 (`?? 0`). Rational values are rendered with
`toString`; nothing proved below depends on the digits matching the JS
number-to-string algorithm. -/
def crossMetricChecks (day : DailyPerformanceEntry) : List String :=
  let date := day.date
  let adSpent := day.metrics ("Ad spent")
  let conversions := day.metrics ("Conversions")
  let linkClicks := day.metrics ("LINK CLICKS")
  let reach := day.metrics ("REACH")
  let ctr := day.metrics ("CTR")
  let roas := day.metrics ("ROAS")
  let adFrequency := day.metrics ("AD FREQUENCY")
  (if adSpent < 0 then
    ["Date " ++ date ++ ": " ++ quoteSq ("Ad spent") ++ " cannot be negative."] else []) ++
  (if conversions < 0 then
    ["Date " ++ date ++ ": " ++ quoteSq ("Conversions") ++ " cannot be negative."] else []) ++
  (if linkClicks < 0 then
    ["Date " ++ date ++ ": " ++ quoteSq ("LINK CLICKS") ++ " cannot be negative."] else []) ++
  (if reach < 0 then
    ["Date " ++ date ++ ": " ++ quoteSq ("REACH") ++ " cannot be negative."] else []) ++
  (if adFrequency < 0 then
    ["Date " ++ date ++ ": " ++ quoteSq ("AD FREQUENCY") ++ " cannot be negative."] else []) ++
  (if linkClicks > 0 ∧ reach > 0 ∧ linkClicks > reach then
    ["Date " ++ date ++ ": Logical error - " ++ quoteSq ("LINK CLICKS") ++ " (" ++
      toString linkClicks ++ ") exceed " ++ quoteSq ("REACH") ++ " (" ++
      toString reach ++ ")."] else []) ++
  (if ctr < 0 ∨ ctr > 1 then
    ["Date " ++ date ++ ": " ++ quoteSq ("CTR") ++ " (" ++ toString ctr ++
      ") is outside a plausible decimal range (0-1)."] else []) ++
  (if roas < 0 then
    ["Date " ++ date ++ ": " ++ quoteSq ("ROAS") ++ " (" ++ toString roas ++
      ") cannot be negative."] else [])

/-- The validation-failure message thrown at lines 107-113: the first 5
recorded messages joined by newlines, plus an overflow note naming the
count of the remainder when more than 5 were recorded. -/
def validationFailureMsg (errs : List String) : String :=
  joinSep ("\n") (errs.take 5) ++
    (if errs.length > 5 then
      "\n...and " ++ toString (errs.length - 5) ++ " more errors." else "")

/-! ### Shot Aggregator (src/unnamed/part_002, lines 119-148) -/

/-- Builds one `ShotAnalysisEntry` from a window (lines 130-141):
id `«stage»-Shot «shotNumber»`, dates from the window's first and last
entry, day count = window size, and every named metric set to the mean
of that metric over the window. Unnamed metric keys stay 0, matching the
`?? 0` reads downstream. -/
def mkShot (metricNames : List String) (stage : FunnelStageContext)
    (shotNumber : ℕ) (daysInShot : List DailyPerformanceEntry) : ShotAnalysisEntry where
  shotId := stage.name ++ "-Shot " ++ toString shotNumber
  startDate := (daysInShot.headD emptyEntry).date
  endDate := (daysInShot.getLastD emptyEntry).date
  numDaysInShot := some (daysInShot.length : ℚ)
  funnelStage := stage
  metrics := metricNames.foldl
    (fun f headerName => Function.update f headerName
      ((daysInShot.map (fun d => d.metrics headerName)).sum / (daysInShot.length : ℚ)))
    (fun _ => 0)

/-- The aggregation loop of lines 123-144: `for (i = 0; i < numDays; i += 3)`
takes `dailyData.slice(i, i + 3)` as shot number `i / 3 + shotNumber`.
The recursion peels three days per step; a trailing window of one or two
days becomes a shot of its own. Structured as a four-way match so that it
is structurally recursive and evaluates inside the kernel. -/
def aggregateShotsGo (metricNames : List String) (stage : FunnelStageContext) :
    List DailyPerformanceEntry → ℕ → List ShotAnalysisEntry
  | [], _ => []
  | [a], shotNumber => [mkShot metricNames stage shotNumber [a]]
  | [a, b], shotNumber => [mkShot metricNames stage shotNumber [a, b]]
  | a :: b :: c :: rest, shotNumber =>
    mkShot metricNames stage shotNumber [a, b, c] ::
      aggregateShotsGo metricNames stage rest (shotNumber + 1)

/-- The whole loop: shot numbering starts at 1 (line 124). -/
def aggregateShots (metricNames : List String) (stage : FunnelStageContext)
    (dailyData : List DailyPerformanceEntry) : List ShotAnalysisEntry :=
  aggregateShotsGo metricNames stage dailyData 1

/-- The window the source loop reads for 0-based shot index `i`:
`dailyData.slice(3 * i, 3 * i + 3)`. -/
def sliceWindow (dailyData : List DailyPerformanceEntry) (i : ℕ) :
    List DailyPerformanceEntry :=
  (dailyData.drop (3 * i)).take 3

/-! ### parseCSV (src/unnamed/part_002, lines 15-165) -/

/-- The validation phase of `parseCSV` (lines 16-105): header checks that
throw immediately, then row parsing and cross-metric checks that
accumulate into `validationErrors` in source push order (missing-columns
message first, then per-row shape/type errors, then per-day range
errors). Returns the metric names, the validated daily rows, and the
accumulated error list. -/
def parsePhase1 (text : String) :
    Except String (List String × List DailyPerformanceEntry × List String) :=
  let lines := (jsSplit '\n' (jsTrim text)).filter (fun l => jsTrim l ≠ "")
  if lines.length < 2 then
    Except.error ("File appears empty or invalid. Expected at least a header row and one data row.")
  else
    let rawHeaders := (jsSplit ',' (lines.headD "")).map jsTrim
    if rawHeaders.length = 0 ∨ jsToUpper (rawHeaders.headD "") ≠ "DATE" then
      Except.error ("Invalid CSV header. Expected " ++ quoteSq ("DATE") ++
        " as the first column header.")
    else
      let metricNames := rawHeaders.drop 1
      if metricNames.length = 0 then
        Except.error ("No metric columns found in the header row.")
      else
        let rowsOut := processRows rawHeaders.length metricNames (lines.drop 1) 0
        let dailyData := rowsOut.1
        let validationErrors :=
          headerErrors metricNames ++ rowsOut.2 ++
            (dailyData.map crossMetricChecks).flatten
        Except.ok (metricNames, dailyData, validationErrors)

/-- Full `parseCSV` for one stage: validation phase, then the
throw-on-errors gate of lines 107-117, then shot aggregation
(lines 119-148). `Except.error` models the thrown `Error`, which the
caller surfaces without loading any data. -/
def parseCSV (text : String) (stage : FunnelStageContext) :
    Except String (List ShotAnalysisEntry) :=
  match parsePhase1 text with
  | Except.error e => Except.error e
  | Except.ok out =>
    let validationErrors := out.2.2
    let dailyData := out.2.1
    let metricNames := out.1
    if validationErrors.length > 0 then
      Except.error (validationFailureMsg validationErrors)
    else if dailyData.length = 0 then
      Except.error ("No valid daily performance data rows could be parsed.")
    else
      let shotData := aggregateShots metricNames stage dailyData
      if shotData.length = 0 then
        Except.error ("No valid 3-day performance shots could be aggregated.")
      else Except.ok shotData

/-- The `validationErrors` list a parse attempt accumulates (empty when
an immediate header throw precedes accumulation). -/
def recordedErrors (text : String) : List String :=
  match parsePhase1 text with
  | Except.error _ => []
  | Except.ok out => out.2.2

/-- The validated daily rows of a parse attempt. -/
def parsedDailyData (text : String) : List DailyPerformanceEntry :=
  match parsePhase1 text with
  | Except.error _ => []
  | Except.ok out => out.2.1

/-- The shots a successful parse hands onward, `[]` on failure. -/
def parsedShots (text : String) (stage : FunnelStageContext) : List ShotAnalysisEntry :=
  match parseCSV text stage with
  | Except.error _ => []
  | Except.ok shots => shots

/-! ### Stage Merge Manager (src/unnamed/part_002, lines 150-160 and 277-283) -/

/-- The merge of lines 151-154: drop the previously stored shots of the
submitted stage, then append the new shots. `onDataLoaded` then receives
exactly this list. -/
def submitStage (accumulatedShots : List ShotAnalysisEntry)
    (stage : FunnelStageContext) (shotData : List ShotAnalysisEntry) :
    List ShotAnalysisEntry :=
  accumulatedShots.filter (fun s => s.funnelStage != stage) ++ shotData

/-- The clear button of lines 277-283: drop the stage's shots. -/
def clearStage (accumulatedShots : List ShotAnalysisEntry)
    (stage : FunnelStageContext) : List ShotAnalysisEntry :=
  accumulatedShots.filter (fun s => s.funnelStage != stage)

/-! ### Metrics Aggregation Engine (src/App.tsx, `calculateMetrics` lines 18-86) -/

/-- The mutable accumulators of lines 19-33. -/
structure MetricsAcc where
  totalAdSpent : ℚ
  totalConversions : ℚ
  totalLinkClicks : ℚ
  totalReach : ℚ
  totalLPViews : ℚ
  totalATCs : ℚ
  totalICs : ℚ
  sumCPM : ℚ
  sumCTR : ℚ
  sumROAS : ℚ
  sumCPA : ℚ
  sumAdFrequency : ℚ
  totalDaysAnalyzed : ℚ
deriving DecidableEq, Repr

/-- All accumulators start at 0. -/
def MetricsAcc.init : MetricsAcc := ⟨0, 0, 0, 0, 0, 0, 0, 0, 0, 0, 0, 0, 0⟩

/-- One iteration of the `data.forEach(shot => ...)` loop (lines 36-55):
extensive totals add the per-day average times `numDaysInShot ?? 3`;
intensive sums add the shot-level average unweighted. -/
def accumulateShot (acc : MetricsAcc) (shot : ShotAnalysisEntry) : MetricsAcc :=
  let daysInShot := shot.numDaysInShot.getD 3
  { totalAdSpent := acc.totalAdSpent + shot.metrics ("Ad spent") * daysInShot
    totalConversions := acc.totalConversions + shot.metrics ("Conversions") * daysInShot
    totalLinkClicks := acc.totalLinkClicks + shot.metrics ("LINK CLICKS") * daysInShot
    totalReach := acc.totalReach + shot.metrics ("REACH") * daysInShot
    totalLPViews := acc.totalLPViews + shot.metrics ("Landing page views") * daysInShot
    totalATCs := acc.totalATCs + shot.metrics ("Add to carts") * daysInShot
    totalICs := acc.totalICs + shot.metrics ("initiate checkout") * daysInShot
    sumCPM := acc.sumCPM + shot.metrics ("CPM")
    sumCTR := acc.sumCTR + shot.metrics ("CTR")
    sumROAS := acc.sumROAS + shot.metrics ("ROAS")
    sumCPA := acc.sumCPA + shot.metrics ("CPA")
    sumAdFrequency := acc.sumAdFrequency + shot.metrics ("AD FREQUENCY")
    totalDaysAnalyzed := acc.totalDaysAnalyzed + daysInShot }

/-- The returned portfolio snapshot (lines 68-85). -/
structure AggregatedMetrics where
  totalAdSpent : ℚ
  totalConversions : ℚ
  totalLinkClicks : ℚ
  totalReach : ℚ
  totalLPViews : ℚ
  totalATCs : ℚ
  totalICs : ℚ
  avgCPM : ℚ
  avgCTR : ℚ
  avgROAS : ℚ
  avgCPA : ℚ
  avgAdFrequency : ℚ
  cpc : ℚ
  totalImpressions : ℚ
deriving DecidableEq, Repr

/-- `calculateMetrics` (src/App.tsx lines 18-86): folds the shot list
through `accumulateShot`, averages the intensive sums over the shot
count (0 when there are no shots), and derives cost-per-click and
estimated impressions behind strict positivity guards. -/
def calculateMetrics (data : List ShotAnalysisEntry) : AggregatedMetrics :=
  let acc := data.foldl accumulateShot MetricsAcc.init
  let totalShotsCount : ℚ := (data.length : ℚ)
  let avgCPM := if totalShotsCount > 0 then acc.sumCPM / totalShotsCount else 0
  let avgCTR := if totalShotsCount > 0 then acc.sumCTR / totalShotsCount else 0
  let avgROAS := if totalShotsCount > 0 then acc.sumROAS / totalShotsCount else 0
  let avgCPA := if totalShotsCount > 0 then acc.sumCPA / totalShotsCount else 0
  let avgAdFrequency := if totalShotsCount > 0 then acc.sumAdFrequency / totalShotsCount else 0
  let cpc := if acc.totalLinkClicks > 0 then acc.totalAdSpent / acc.totalLinkClicks else 0
  let totalImpressions :=
    if avgCPM > 0 ∧ acc.totalAdSpent > 0 then acc.totalAdSpent / avgCPM * 1000 else 0
  { totalAdSpent := acc.totalAdSpent
    totalConversions := acc.totalConversions
    totalLinkClicks := acc.totalLinkClicks
    totalReach := acc.totalReach
    totalLPViews := acc.totalLPViews
    totalATCs := acc.totalATCs
    totalICs := acc.totalICs
    avgCPM := avgCPM
    avgCTR := avgCTR
    avgROAS := avgROAS
    avgCPA := avgCPA
    avgAdFrequency := avgAdFrequency
    cpc := cpc
    totalImpressions := totalImpressions }

/-! ### The CSV template shipped with the app (src/unnamed/part_002, lines 184-187) -/

/-- Template header row. -/
def templateHeaders : String :=
  "DATE,CPM,CTR,REACH,LINK CLICKS,Landing page views,Add to carts,initiate checkout,Conversions,CPA,ROAS,Ad spent,AD FREQUENCY"

/-- Template data row 1. -/
def templateData1 : String :=
  "1 Mar,10.50,0.02,50000,1000,500,50,30,10,15.00,3.50,150.00,1.8"

/-- Template data row 2. -/
def templateData2 : String :=
  "2 Mar,11.20,0.025,55000,1375,600,65,40,12,12.50,4.00,150.00,2.1"

/-- Template data row 3. -/
def templateData3 : String :=
  "3 Mar,9.80,0.018,48000,864,450,40,25,8,18.75,3.20,150.00,1.9"

/-- The template file content assembled at line 190. -/
def templateText : String :=
  templateHeaders ++ "\n" ++ templateData1 ++ "\n" ++ templateData2 ++ "\n" ++ templateData3

/-! ### Sample data used by witnesses -/

/-- The metric names of the template header, in column order. -/
def templateMetricNames : List String :=
  ["CPM", "CTR", "REACH", "LINK CLICKS", "Landing page views", "Add to carts",
   "initiate checkout", "Conversions", "CPA", "ROAS", "Ad spent", "AD FREQUENCY"]

/-- A daily entry with the given date and all metrics 0. -/
def sampleDay (d : String) : DailyPerformanceEntry := ⟨d, fun _ => 0⟩

/-- Four concrete daily entries: aggregation yields a full window and a
trailing 1-day window. -/
def fourDays : List DailyPerformanceEntry :=
  [sampleDay ("1 Mar"), sampleDay ("2 Mar"), sampleDay ("3 Mar"), sampleDay ("4 Mar")]

/-- Shot value used to read the head of a concrete shot list. -/
def emptyShot : ShotAnalysisEntry := ⟨"", "", "", none, .TOF, fun _ => 0⟩

/-- A TOF shot, a replacement TOF shot, and an MOF shot for the C5
witness. -/
def shotTofA : ShotAnalysisEntry := ⟨"TOF-Shot 1", "1 Mar", "3 Mar", some 3, .TOF, fun _ => 0⟩

/-- Replacement TOF shot for the C5 witness. -/
def shotTofB : ShotAnalysisEntry := ⟨"TOF-Shot 1", "4 Mar", "6 Mar", some 3, .TOF, fun _ => 1⟩

/-- MOF shot standing for another stage's prior data in the C5 witness. -/
def shotMof : ShotAnalysisEntry := ⟨"MOF-Shot 1", "1 Mar", "3 Mar", some 3, .MOF, fun _ => 2⟩

/-- Shot with a negative link-click average, on which the C9 claim's
unguarded quotient disagrees with the code's `> 0` guard. -/
def negClicksShot : ShotAnalysisEntry :=
  ⟨"TOF-Shot 1", "1 Mar", "1 Mar", some 1, .TOF,
    fun m => if m = "LINK CLICKS" then -1 else if m = "Ad spent" then 1 else 0⟩

/-- A data row whose CPM field reads `N/A`: records a type error, so the
whole submission must fail. -/
def badRowText : String :=
  templateHeaders ++ "\n" ++ "1 Mar,N/A,0.02,50000,1000,500,50,30,10,15.00,3.50,150.00,1.8"

/-- A data row with `LINK CLICKS` = 2000 exceeding `REACH` = 1000. -/
def clicksExceedReachText : String :=
  templateHeaders ++ "\n" ++ "1 Mar,10.50,0.02,1000,2000,500,50,30,10,15.00,3.50,150.00,1.8"

/-- A row whose date field is set but whose 12 metric fields are all
empty. -/
def emptyMetricsRow : String := "1 Mar,,,,,,,,,,,,"

/-- The cross-field plausibility conditions as the spec states them
(§4.1), directly on a day's fields; the refinement below compares this
with the code's `crossMetricChecks`. -/
def specCrossFieldViolation (day : DailyPerformanceEntry) : Prop :=
  day.metrics ("Ad spent") < 0 ∨ day.metrics ("Conversions") < 0 ∨
  day.metrics ("LINK CLICKS") < 0 ∨ day.metrics ("REACH") < 0 ∨
  day.metrics ("AD FREQUENCY") < 0 ∨
  (day.metrics ("LINK CLICKS") > 0 ∧ day.metrics ("REACH") > 0 ∧
    day.metrics ("LINK CLICKS") > day.metrics ("REACH")) ∨
  day.metrics ("CTR") < 0 ∨ day.metrics ("CTR") > 1 ∨
  day.metrics ("ROAS") < 0

instance (day : DailyPerformanceEntry) : Decidable (specCrossFieldViolation day) := by
  unfold specCrossFieldViolation
  infer_instance

/-! ### Helper lemmas -/

/-- A key not in the folded name list is untouched by the update fold. -/
theorem foldl_update_not_mem (g : String → ℚ) :
    ∀ (names : List String) (f : String → ℚ) (m : String), m ∉ names →
      (names.foldl (fun f headerName => Function.update f headerName (g headerName)) f) m = f m := by
  intro names
  induction names with
  | nil => intro f m _; rfl
  | cons n rest ih =>
    intro f m hm
    rw [List.mem_cons, not_or] at hm
    rw [List.foldl_cons, ih _ _ hm.2, Function.update_noteq hm.1]

/-- A key in the folded name list ends up at its `g`-value: later updates
of other keys do not disturb it, and a duplicate occurrence rewrites the
same value. -/
theorem foldl_update_mem (g : String → ℚ) :
    ∀ (names : List String) (f : String → ℚ) (m : String), m ∈ names →
      (names.foldl (fun f headerName => Function.update f headerName (g headerName)) f) m = g m := by
  intro names
  induction names with
  | nil => intro f m hm; exact absurd hm (List.not_mem_nil m)
  | cons n rest ih =>
    intro f m hm
    by_cases hmr : m ∈ rest
    · rw [List.foldl_cons, ih _ _ hmr]
    · have hmn : m = n := by
        rcases List.mem_cons.mp hm with h | h
        · exact h
        · exact absurd h hmr
      rw [List.foldl_cons, foldl_update_not_mem _ _ _ _ hmr, hmn, Function.update_same]

/-- Reading a named metric out of `mkShot` gives the window mean. -/
theorem mkShot_metrics_mem (metricNames : List String) (stage : FunnelStageContext)
    (shotNumber : ℕ) (daysInShot : List DailyPerformanceEntry) (m : String)
    (hm : m ∈ metricNames) :
    (mkShot metricNames stage shotNumber daysInShot).metrics m =
      ((daysInShot.map (fun d => d.metrics m)).sum / (daysInShot.length : ℚ)) := by
  simpa [mkShot] using foldl_update_mem
    (fun headerName => ((daysInShot.map (fun d => d.metrics headerName)).sum /
      (daysInShot.length : ℚ))) metricNames (fun _ => 0) m hm

/-- Shot count of the aggregation loop: one shot per started group of 3,
i.e. the ceiling of `days / 3`. -/
theorem aggregateShotsGo_length (metricNames : List String) (stage : FunnelStageContext) :
    ∀ (ds : List DailyPerformanceEntry) (shotNumber : ℕ),
      (aggregateShotsGo metricNames stage ds shotNumber).length = (ds.length + 2) / 3
  | [], _ => by simp [aggregateShotsGo]
  | [_], _ => by simp [aggregateShotsGo]
  | [_, _], _ => by simp [aggregateShotsGo]
  | _ :: _ :: _ :: rest, shotNumber => by
    have ih := aggregateShotsGo_length metricNames stage rest (shotNumber + 1)
    simp only [aggregateShotsGo, List.length_cons, ih]
    omega

/-- The day counts of the produced shots sum to the number of daily rows. -/
theorem aggregateShotsGo_sumDays (metricNames : List String) (stage : FunnelStageContext) :
    ∀ (ds : List DailyPerformanceEntry) (shotNumber : ℕ),
      ((aggregateShotsGo metricNames stage ds shotNumber).map
        (fun s => s.numDaysInShot.getD 3)).sum = (ds.length : ℚ)
  | [], _ => by simp [aggregateShotsGo]
  | [_], _ => by simp [aggregateShotsGo, mkShot]
  | [_, _], _ => by simp [aggregateShotsGo, mkShot]
  | _ :: _ :: _ :: rest, shotNumber => by
    have ih := aggregateShotsGo_sumDays metricNames stage rest (shotNumber + 1)
    simp [aggregateShotsGo, mkShot, ih]
    ring

/-- Every produced shot holds between 1 and 3 days, recorded in
`numDaysInShot`. -/
theorem aggregateShotsGo_numDays (metricNames : List String) (stage : FunnelStageContext) :
    ∀ (ds : List DailyPerformanceEntry) (shotNumber : ℕ),
      ∀ s ∈ aggregateShotsGo metricNames stage ds shotNumber,
        ∃ n : ℕ, 1 ≤ n ∧ n ≤ 3 ∧ s.numDaysInShot = some (n : ℚ)
  | [], _ => by simp [aggregateShotsGo]
  | [_], _ => by
    intro s hs
    rw [aggregateShotsGo, List.mem_singleton] at hs
    exact ⟨1, by norm_num, by norm_num, by simp [hs, mkShot]⟩
  | [_, _], _ => by
    intro s hs
    rw [aggregateShotsGo, List.mem_singleton] at hs
    exact ⟨2, by norm_num, by norm_num, by simp [hs, mkShot]⟩
  | a :: b :: c :: rest, shotNumber => by
    intro s hs
    rw [aggregateShotsGo, List.mem_cons] at hs
    rcases hs with h | h
    · exact ⟨3, by norm_num, by norm_num, by simp [h, mkShot]⟩
    · exact aggregateShotsGo_numDays metricNames stage rest (shotNumber + 1) s h

/-- Dropping one window of three shifts the slice index by one. -/
theorem sliceWindow_succ_cons3 (a b c : DailyPerformanceEntry)
    (rest : List DailyPerformanceEntry) (i : ℕ) :
    sliceWindow (a :: b :: c :: rest) (i + 1) = sliceWindow rest i := by
  simp only [sliceWindow]
  have h3 : 3 * (i + 1) = 3 * i + 1 + 1 + 1 := by ring
  rw [h3, List.drop_succ_cons, List.drop_succ_cons, List.drop_succ_cons]

/-- The `i`-th produced shot is exactly `mkShot` of the `i`-th slice,
numbered `shotNumber + i`. -/
theorem aggregateShotsGo_get (metricNames : List String) (stage : FunnelStageContext) :
    ∀ (i : ℕ) (ds : List DailyPerformanceEntry) (shotNumber : ℕ)
      (h : i < (aggregateShotsGo metricNames stage ds shotNumber).length),
      (aggregateShotsGo metricNames stage ds shotNumber).get ⟨i, h⟩ =
        mkShot metricNames stage (shotNumber + i) (sliceWindow ds i) := by
  intro i
  induction i with
  | zero =>
    intro ds shotNumber h
    match ds with
    | [] => simp [aggregateShotsGo] at h
    | [a] => simp [aggregateShotsGo, sliceWindow]
    | [a, b] => simp [aggregateShotsGo, sliceWindow]
    | a :: b :: c :: rest => simp [aggregateShotsGo, sliceWindow]
  | succ i ih =>
    intro ds shotNumber h
    match ds with
    | [] => simp [aggregateShotsGo] at h
    | [a] => simp [aggregateShotsGo] at h
    | [a, b] => simp [aggregateShotsGo] at h
    | a :: b :: c :: rest =>
      have h' : i < (aggregateShotsGo metricNames stage rest (shotNumber + 1)).length := by
        simpa [aggregateShotsGo] using h
      calc (aggregateShotsGo metricNames stage (a :: b :: c :: rest) shotNumber).get ⟨i + 1, h⟩
          = (aggregateShotsGo metricNames stage rest (shotNumber + 1)).get ⟨i, h'⟩ := rfl
        _ = mkShot metricNames stage (shotNumber + 1 + i) (sliceWindow rest i) := ih rest (shotNumber + 1) h'
        _ = mkShot metricNames stage (shotNumber + (i + 1)) (sliceWindow (a :: b :: c :: rest) (i + 1)) := by
            rw [sliceWindow_succ_cons3, Nat.add_assoc, Nat.add_comm 1 i]

/-- The slices at indices `0 .. ceil(n/3) - 1` concatenate back to the
whole daily sequence: windows are disjoint, contiguous and exhaustive. -/
theorem flatten_sliceWindows :
    ∀ (ds : List DailyPerformanceEntry),
      ((List.range ((ds.length + 2) / 3)).map (sliceWindow ds)).flatten = ds
  | [] => by simp
  | [a] => by simp [sliceWindow, List.range_succ]
  | [a, b] => by simp [sliceWindow, List.range_succ]
  | a :: b :: c :: rest => by
    have ih := flatten_sliceWindows rest
    have hlen : ((a :: b :: c :: rest).length + 2) / 3 = (rest.length + 2) / 3 + 1 := by
      simp only [List.length_cons]
      omega
    rw [hlen, List.range_succ_eq_map, List.map_cons, List.map_map]
    have hcomp : (sliceWindow (a :: b :: c :: rest)) ∘ Nat.succ = sliceWindow rest := by
      funext j
      exact sliceWindow_succ_cons3 a b c rest j
    rw [hcomp]
    have h0 : sliceWindow (a :: b :: c :: rest) 0 = [a, b, c] := by
      simp [sliceWindow]
    rw [h0, List.flatten_cons, ih]
    rfl

/-- Projection of the metrics fold: any accumulator field that
`accumulateShot` bumps by `g shot` ends as its start plus the mapped sum. -/
theorem foldl_acc_proj (proj : MetricsAcc → ℚ) (g : ShotAnalysisEntry → ℚ)
    (hstep : ∀ acc s, proj (accumulateShot acc s) = proj acc + g s) :
    ∀ (data : List ShotAnalysisEntry) (acc : MetricsAcc),
      proj (data.foldl accumulateShot acc) = proj acc + (data.map g).sum := by
  intro data
  induction data with
  | nil => intro acc; simp
  | cons s t ih =>
    intro acc
    rw [List.foldl_cons, ih, hstep, List.map_cons, List.sum_cons, add_assoc]

/-- Every shot the aggregation loop produces carries the submitted
stage's tag (line 135). -/
theorem aggregateShotsGo_stage (metricNames : List String) (stage : FunnelStageContext) :
    ∀ (ds : List DailyPerformanceEntry) (shotNumber : ℕ),
      ∀ s ∈ aggregateShotsGo metricNames stage ds shotNumber, s.funnelStage = stage
  | [], _ => by simp [aggregateShotsGo]
  | [_], _ => by
    intro s hs
    rw [aggregateShotsGo, List.mem_singleton] at hs
    rw [hs]
    rfl
  | [_, _], _ => by
    intro s hs
    rw [aggregateShotsGo, List.mem_singleton] at hs
    rw [hs]
    rfl
  | _ :: _ :: _ :: rest, shotNumber => by
    intro s hs
    rw [aggregateShotsGo, List.mem_cons] at hs
    rcases hs with h | h
    · rw [h]; rfl
    · exact aggregateShotsGo_stage metricNames stage rest (shotNumber + 1) s h

/-- Every shot a successful parse hands onward is tagged with the stage
the upload was submitted under — the shape that justifies the
replace-semantics hypothesis on submitted sequences. -/
theorem parsedShots_stage (text : String) (stage : FunnelStageContext) :
    ∀ s ∈ parsedShots text stage, s.funnelStage = stage := by
  unfold parsedShots
  cases hc : parseCSV text stage with
  | error e => simp
  | ok shots =>
    intro s hs
    unfold parseCSV at hc
    cases hp : parsePhase1 text with
    | error e => rw [hp] at hc; exact absurd hc (by simp)
    | ok out =>
      rw [hp] at hc
      simp only at hc
      split at hc
      · exact absurd hc (by simp)
      · split at hc
        · exact absurd hc (by simp)
        · split at hc
          · exact absurd hc (by simp)
          · rw [Except.ok.injEq] at hc
            subst hc
            exact aggregateShotsGo_stage out.1 stage out.2.1 1 s hs

/-! ### Claims -/

/-- C1: for every non-empty validated daily sequence of `n` entries for
one stage, the Shot Aggregator partitions it into consecutive windows of
3 entries with a trailing window of 1 or 2 entries kept as its own shot,
so the number of shots equals `ceil(n / 3)` (written `(n + 2) / 3` in
natural division) and the day counts recorded in `numDaysInShot` sum to
`n`. -/
theorem shot_partition_counts (metricNames : List String) (stage : FunnelStageContext)
    (dailyData : List DailyPerformanceEntry) (_hne : dailyData ≠ []) :
    (aggregateShots metricNames stage dailyData).length = (dailyData.length + 2) / 3 ∧
    ((aggregateShots metricNames stage dailyData).map
      (fun s => s.numDaysInShot.getD 3)).sum = (dailyData.length : ℚ) ∧
    ∀ s ∈ aggregateShots metricNames stage dailyData,
      ∃ n : ℕ, 1 ≤ n ∧ n ≤ 3 ∧ s.numDaysInShot = some (n : ℚ) :=
  ⟨aggregateShotsGo_length metricNames stage dailyData 1,
   aggregateShotsGo_sumDays metricNames stage dailyData 1,
   aggregateShotsGo_numDays metricNames stage dailyData 1⟩

/-- Witness for C1 at a concrete 4-day input: 2 shots whose day counts
sum to 4. -/
theorem shot_partition_counts_witness :
    fourDays ≠ [] ∧
    ((aggregateShots templateMetricNames .TOF fourDays).length = (fourDays.length + 2) / 3 ∧
     ((aggregateShots templateMetricNames .TOF fourDays).map
       (fun s => s.numDaysInShot.getD 3)).sum = (fourDays.length : ℚ) ∧
     ∀ s ∈ aggregateShots templateMetricNames .TOF fourDays,
       ∃ n : ℕ, 1 ≤ n ∧ n ≤ 3 ∧ s.numDaysInShot = some (n : ℚ)) :=
  ⟨by simp [fourDays],
   shot_partition_counts templateMetricNames .TOF fourDays (by simp [fourDays])⟩

/-- C2: the shot at 0-based window index `i` carries id
`«STAGE»-Shot «i+1»`, start/end dates from the window's first and last
entry, `numDaysInShot` = window size, and each named metric is the mean
of that metric over exactly the window `dailyData.slice(3i, 3i+3)`; the
windows concatenate back to the input, so no entry is reused or
skipped. -/
theorem shot_window_content (metricNames : List String) (stage : FunnelStageContext)
    (dailyData : List DailyPerformanceEntry) (i : ℕ)
    (hi : i < (aggregateShots metricNames stage dailyData).length) :
    ((aggregateShots metricNames stage dailyData).get ⟨i, hi⟩).shotId =
      stage.name ++ "-Shot " ++ toString (i + 1) ∧
    ((aggregateShots metricNames stage dailyData).get ⟨i, hi⟩).startDate =
      ((sliceWindow dailyData i).headD emptyEntry).date ∧
    ((aggregateShots metricNames stage dailyData).get ⟨i, hi⟩).endDate =
      ((sliceWindow dailyData i).getLastD emptyEntry).date ∧
    ((aggregateShots metricNames stage dailyData).get ⟨i, hi⟩).numDaysInShot =
      some (((sliceWindow dailyData i).length : ℚ)) ∧
    (∀ m ∈ metricNames,
      ((aggregateShots metricNames stage dailyData).get ⟨i, hi⟩).metrics m =
        ((sliceWindow dailyData i).map (fun d => d.metrics m)).sum /
          ((sliceWindow dailyData i).length : ℚ)) ∧
    ((List.range ((dailyData.length + 2) / 3)).map (sliceWindow dailyData)).flatten =
      dailyData := by
  have hget : (aggregateShots metricNames stage dailyData).get ⟨i, hi⟩ =
      mkShot metricNames stage (1 + i) (sliceWindow dailyData i) :=
    aggregateShotsGo_get metricNames stage i dailyData 1 hi
  refine ⟨?_, ?_, ?_, ?_, ?_, flatten_sliceWindows dailyData⟩
  · rw [hget, Nat.add_comm 1 i]; rfl
  · rw [hget]; rfl
  · rw [hget]; rfl
  · rw [hget]; rfl
  · intro m hm
    rw [hget]
    exact mkShot_metrics_mem metricNames stage (1 + i) (sliceWindow dailyData i) m hm

/-- Witness for C2 at the concrete 4-day input and window index 1: the
trailing shot is `TOF-Shot 2` over the single day `4 Mar`. -/
theorem shot_window_content_witness :
    ((aggregateShots templateMetricNames .TOF fourDays).get
        ⟨1, by decide⟩).shotId =
      FunnelStageContext.name .TOF ++ "-Shot " ++ toString (1 + 1) ∧
    ((aggregateShots templateMetricNames .TOF fourDays).get
        ⟨1, by decide⟩).startDate = ((sliceWindow fourDays 1).headD emptyEntry).date ∧
    ((aggregateShots templateMetricNames .TOF fourDays).get
        ⟨1, by decide⟩).endDate = ((sliceWindow fourDays 1).getLastD emptyEntry).date ∧
    ((aggregateShots templateMetricNames .TOF fourDays).get
        ⟨1, by decide⟩).numDaysInShot = some (((sliceWindow fourDays 1).length : ℚ)) ∧
    (∀ m ∈ templateMetricNames,
      ((aggregateShots templateMetricNames .TOF fourDays).get
          ⟨1, by decide⟩).metrics m =
        ((sliceWindow fourDays 1).map (fun d => d.metrics m)).sum /
          ((sliceWindow fourDays 1).length : ℚ)) ∧
    ((List.range ((fourDays.length + 2) / 3)).map (sliceWindow fourDays)).flatten =
      fourDays :=
  shot_window_content templateMetricNames .TOF fourDays 1 (by decide)

/-- C3: every extensive total of `AggregatedMetrics` is the sum over all
shots of the shot's per-day average times its day count, a shot without
`numDaysInShot` counting as 3 days. -/
theorem extensive_totals_from_averages (data : List ShotAnalysisEntry) :
    (calculateMetrics data).totalAdSpent =
      (data.map (fun s => s.metrics ("Ad spent") * s.numDaysInShot.getD 3)).sum ∧
    (calculateMetrics data).totalConversions =
      (data.map (fun s => s.metrics ("Conversions") * s.numDaysInShot.getD 3)).sum ∧
    (calculateMetrics data).totalLinkClicks =
      (data.map (fun s => s.metrics ("LINK CLICKS") * s.numDaysInShot.getD 3)).sum ∧
    (calculateMetrics data).totalReach =
      (data.map (fun s => s.metrics ("REACH") * s.numDaysInShot.getD 3)).sum ∧
    (calculateMetrics data).totalLPViews =
      (data.map (fun s => s.metrics ("Landing page views") * s.numDaysInShot.getD 3)).sum ∧
    (calculateMetrics data).totalATCs =
      (data.map (fun s => s.metrics ("Add to carts") * s.numDaysInShot.getD 3)).sum ∧
    (calculateMetrics data).totalICs =
      (data.map (fun s => s.metrics ("initiate checkout") * s.numDaysInShot.getD 3)).sum := by
  refine ⟨?_, ?_, ?_, ?_, ?_, ?_, ?_⟩
  · simpa [calculateMetrics, MetricsAcc.init] using foldl_acc_proj MetricsAcc.totalAdSpent
      (fun s => s.metrics ("Ad spent") * s.numDaysInShot.getD 3)
      (fun _ _ => rfl) data MetricsAcc.init
  · simpa [calculateMetrics, MetricsAcc.init] using foldl_acc_proj MetricsAcc.totalConversions
      (fun s => s.metrics ("Conversions") * s.numDaysInShot.getD 3)
      (fun _ _ => rfl) data MetricsAcc.init
  · simpa [calculateMetrics, MetricsAcc.init] using foldl_acc_proj MetricsAcc.totalLinkClicks
      (fun s => s.metrics ("LINK CLICKS") * s.numDaysInShot.getD 3)
      (fun _ _ => rfl) data MetricsAcc.init
  · simpa [calculateMetrics, MetricsAcc.init] using foldl_acc_proj MetricsAcc.totalReach
      (fun s => s.metrics ("REACH") * s.numDaysInShot.getD 3)
      (fun _ _ => rfl) data MetricsAcc.init
  · simpa [calculateMetrics, MetricsAcc.init] using foldl_acc_proj MetricsAcc.totalLPViews
      (fun s => s.metrics ("Landing page views") * s.numDaysInShot.getD 3)
      (fun _ _ => rfl) data MetricsAcc.init
  · simpa [calculateMetrics, MetricsAcc.init] using foldl_acc_proj MetricsAcc.totalATCs
      (fun s => s.metrics ("Add to carts") * s.numDaysInShot.getD 3)
      (fun _ _ => rfl) data MetricsAcc.init
  · simpa [calculateMetrics, MetricsAcc.init] using foldl_acc_proj MetricsAcc.totalICs
      (fun s => s.metrics ("initiate checkout") * s.numDaysInShot.getD 3)
      (fun _ _ => rfl) data MetricsAcc.init

/-- C4 counterexample: on the template input (spend 150,150,150 and
conversions 10,12,8 under stage TOF) the parse succeeds but the total
conversions are not 90 as claimed: the engine computes
mean(10,12,8) × 3 = 30. -/
theorem template_total_conversions_counterexample :
    (parseCSV templateText .TOF).isOk = true ∧
    (calculateMetrics (parsedShots templateText .TOF)).totalConversions ≠ 90 := by
  constructor
  · decide
  · decide

/-- C4 amended: the template input under stage TOF yields exactly 1 shot
with `numDaysInShot = 3` and ad-spend average 150, and the aggregated
totals are ad spend 450 and conversions 30 (= mean(10,12,8) × 3). -/
theorem template_scenario :
    (parseCSV templateText .TOF).isOk = true ∧
    (parsedShots templateText .TOF).length = 1 ∧
    ((parsedShots templateText .TOF).headD emptyShot).numDaysInShot = some 3 ∧
    ((parsedShots templateText .TOF).headD emptyShot).metrics ("Ad spent") = 150 ∧
    (calculateMetrics (parsedShots templateText .TOF)).totalAdSpent = 450 ∧
    (calculateMetrics (parsedShots templateText .TOF)).totalConversions = 30 := by
  refine ⟨by decide, by decide, by decide, by decide, by decide, by decide⟩

/-- Filtering to a stage other than the one removed commutes away the
removal filter. -/
theorem filter_stage_comm (other stage : FunnelStageContext) (hother : other ≠ stage) :
    ∀ (l : List ShotAnalysisEntry),
      (l.filter (fun s => s.funnelStage != stage)).filter (fun s => s.funnelStage == other) =
        l.filter (fun s => s.funnelStage == other) := by
  intro l
  induction l with
  | nil => rfl
  | cons x l ih =>
    by_cases hx : x.funnelStage = other
    · have h1 : (x.funnelStage != stage) = true := by
        rw [hx]; exact bne_iff_ne.mpr hother
      have h2 : (x.funnelStage == other) = true := by rw [hx]; simp
      simp [List.filter_cons, h1, h2, ih]
    · by_cases hxs : x.funnelStage = stage
      · have h1 : (x.funnelStage != stage) = false := by rw [hxs]; simp
        have h2 : (x.funnelStage == other) = false := by
          rw [hxs]
          exact beq_eq_false_iff_ne.mpr (Ne.symm hother)
        simp [List.filter_cons, h1, h2, ih]
      · have h1 : (x.funnelStage != stage) = true := bne_iff_ne.mpr hxs
        have h2 : (x.funnelStage == other) = false := beq_eq_false_iff_ne.mpr hx
        simp [List.filter_cons, h1, h2, ih]

/-- C5: submitting a shot sequence for a stage (all of whose shots carry
that stage's tag, as `parsedShots_stage` shows every parsed upload
does) fully replaces that stage's
previous shots — submit A then submit B equals submitting only B — and
leaves every other stage's shots unchanged. -/
theorem submit_replaces (acc A B : List ShotAnalysisEntry) (stage : FunnelStageContext)
    (hA : ∀ s ∈ A, s.funnelStage = stage) :
    submitStage (submitStage acc stage A) stage B = submitStage acc stage B ∧
    ∀ other, other ≠ stage →
      (submitStage acc stage A).filter (fun s => s.funnelStage == other) =
        acc.filter (fun s => s.funnelStage == other) := by
  have hAnil : A.filter (fun s => s.funnelStage != stage) = [] :=
    List.filter_eq_nil_iff.mpr (fun s hs => by rw [hA s hs]; simp)
  constructor
  · simp only [submitStage, List.filter_append, hAnil, List.append_nil]
    congr 1
    exact List.filter_eq_self.mpr (fun a ha => (List.mem_filter.mp ha).2)
  · intro other hother
    have hAother : A.filter (fun s => s.funnelStage == other) = [] := by
      refine List.filter_eq_nil_iff.mpr (fun s hs => ?_)
      rw [hA s hs]
      simp only [beq_iff_eq]
      exact fun h => hother h.symm
    simp only [submitStage, List.filter_append, hAother, List.append_nil]
    exact filter_stage_comm other stage hother acc

/-- Witness for C5 at concrete one-shot lists. -/
theorem submit_replaces_witness :
    submitStage (submitStage [shotMof] .TOF [shotTofA]) .TOF [shotTofB] =
        submitStage [shotMof] .TOF [shotTofB] ∧
      ∀ other, other ≠ FunnelStageContext.TOF →
        (submitStage [shotMof] .TOF [shotTofA]).filter (fun s => s.funnelStage == other) =
          [shotMof].filter (fun s => s.funnelStage == other) :=
  submit_replaces [shotMof] [shotTofA] [shotTofB] .TOF
    (fun s hs => by rw [List.mem_singleton] at hs; rw [hs]; rfl)

/-- C9 counterexample: with total link clicks = -1 (nonzero), the code
returns cost-per-click 0, not total spend divided by total clicks, so the
claim's "cpc equals the quotient whenever the denominator is nonzero"
fails. -/
theorem derived_metrics_counterexample :
    (calculateMetrics [negClicksShot]).totalLinkClicks ≠ 0 ∧
    (calculateMetrics [negClicksShot]).cpc ≠
      (calculateMetrics [negClicksShot]).totalAdSpent /
        (calculateMetrics [negClicksShot]).totalLinkClicks := by
  constructor
  · decide
  · decide

/-- C9 amended: cost-per-click is the quotient of the totals when total
link clicks is positive and 0 otherwise (hence 0 when the denominator is
0); estimated impressions is `spend / avgCPM × 1000` when the average
cost-per-mille and the total spend are both positive and 0 otherwise
(hence 0 when either is 0); and the average cost-per-mille is the
shot-count mean of the shot CPM averages. -/
theorem derived_metrics (data : List ShotAnalysisEntry) :
    (calculateMetrics data).cpc =
      (if (calculateMetrics data).totalLinkClicks > 0
       then (calculateMetrics data).totalAdSpent / (calculateMetrics data).totalLinkClicks
       else 0) ∧
    (calculateMetrics data).totalImpressions =
      (if (calculateMetrics data).avgCPM > 0 ∧ (calculateMetrics data).totalAdSpent > 0
       then (calculateMetrics data).totalAdSpent / (calculateMetrics data).avgCPM * 1000
       else 0) ∧
    (calculateMetrics data).avgCPM =
      (if ((data.length : ℚ)) > 0
       then (data.map (fun s => s.metrics ("CPM"))).sum / ((data.length : ℚ))
       else 0) := by
  have hcpm := foldl_acc_proj MetricsAcc.sumCPM (fun s => s.metrics ("CPM"))
    (fun _ _ => rfl) data MetricsAcc.init
  simp [MetricsAcc.init] at hcpm
  refine ⟨?_, ?_, ?_⟩
  · simp [calculateMetrics]
  · simp [calculateMetrics]
  · simp [calculateMetrics, MetricsAcc.init, hcpm]

/-- C6: the Metrics Aggregation Engine maps the empty shot sequence to
the all-zero `AggregatedMetrics`; being a total function, it cannot
throw. -/
theorem empty_shot_set_all_zero :
    calculateMetrics [] =
      { totalAdSpent := 0, totalConversions := 0, totalLinkClicks := 0,
        totalReach := 0, totalLPViews := 0, totalATCs := 0, totalICs := 0,
        avgCPM := 0, avgCTR := 0, avgROAS := 0, avgCPA := 0,
        avgAdFrequency := 0, cpc := 0, totalImpressions := 0 } := by
  decide

/-- Any parse attempt that recorded at least one validation error throws
the validation-failure message (lines 107-113) before any aggregation
runs. Shared by the error-handling claims. -/
theorem parseCSV_error_of_recordedErrors (text : String) (stage : FunnelStageContext)
    (h : recordedErrors text ≠ []) :
    parseCSV text stage = Except.error (validationFailureMsg (recordedErrors text)) := by
  unfold recordedErrors at h ⊢
  unfold parseCSV
  cases hp : parsePhase1 text with
  | error e => rw [hp] at h; exact absurd rfl h
  | ok out =>
    rw [hp] at h
    have hlen : out.2.2.length > 0 := List.length_pos.mpr h
    simp [hlen]

/-- C7: whenever a parse attempt records at least one validation error,
the Schema Validator fails with the first 5 recorded messages joined by
newlines plus an overflow count when more than 5 were recorded, and no
shots are handed onward. -/
theorem validation_failure_contract (text : String) (stage : FunnelStageContext)
    (h : recordedErrors text ≠ []) :
    parseCSV text stage =
      Except.error (joinSep ("\n") ((recordedErrors text).take 5) ++
        (if (recordedErrors text).length > 5 then
          "\n...and " ++ toString ((recordedErrors text).length - 5) ++ " more errors."
         else "")) ∧
    parsedShots text stage = [] := by
  have he := parseCSV_error_of_recordedErrors text stage h
  refine ⟨he, ?_⟩
  unfold parsedShots
  rw [he]

/-- Witness for C7 at a concrete failing upload. -/
theorem validation_failure_contract_witness :
    recordedErrors badRowText ≠ [] ∧
    (parseCSV badRowText .TOF =
      Except.error (joinSep ("\n") ((recordedErrors badRowText).take 5) ++
        (if (recordedErrors badRowText).length > 5 then
          "\n...and " ++ toString ((recordedErrors badRowText).length - 5) ++ " more errors."
         else "")) ∧
    parsedShots badRowText .TOF = []) :=
  ⟨by decide, validation_failure_contract badRowText .TOF (by decide)⟩

/-- Membership in a guarded singleton pins the element. -/
theorem mem_ite_singleton {c : Prop} [Decidable c] {m msg : String}
    (h : msg ∈ (if c then [m] else [])) : msg = m := by
  split at h
  · exact List.mem_singleton.mp h
  · exact absurd h (List.not_mem_nil msg)

/-- The code's cross-metric check list is non-empty exactly when one of
the spec's plausibility conditions is violated. -/
theorem crossMetricChecks_ne_nil_iff (day : DailyPerformanceEntry) :
    crossMetricChecks day ≠ [] ↔ specCrossFieldViolation day := by
  simp only [crossMetricChecks, specCrossFieldViolation, ne_eq, List.append_eq_nil,
    ite_eq_right_iff, List.cons_ne_nil, imp_false, not_and, not_not]
  tauto

/-- A successful validation phase records the missing-header message,
then the row errors, then one cross-metric block per validated day. -/
theorem parsePhase1_errors_shape (text : String) (mn : List String)
    (daily : List DailyPerformanceEntry) (errs : List String)
    (h : parsePhase1 text = Except.ok (mn, daily, errs)) :
    ∃ rowErrs, errs = headerErrors mn ++ rowErrs ++ (daily.map crossMetricChecks).flatten := by
  simp only [parsePhase1] at h
  split at h
  · exact absurd h (by simp)
  · split at h
    · exact absurd h (by simp)
    · split at h
      · exact absurd h (by simp)
      · rw [Except.ok.injEq, Prod.mk.injEq, Prod.mk.injEq] at h
        obtain ⟨h1, h2, h3⟩ := h
        subst h1
        subst h2
        exact ⟨_, h3.symm⟩

/-- C8: each cross-field plausibility violation of a parsed day records
its own error message, every recorded message is tagged with that day's
date, the check list is non-empty exactly on violations, and any
violation among the validated days makes the parse fail. -/
theorem cross_field_violation_checks (day : DailyPerformanceEntry) (text : String)
    (stage : FunnelStageContext) :
    ((day.metrics ("Ad spent") < 0 →
        ("Date " ++ day.date ++ ": " ++ quoteSq ("Ad spent") ++ " cannot be negative.")
          ∈ crossMetricChecks day) ∧
     (day.metrics ("Conversions") < 0 →
        ("Date " ++ day.date ++ ": " ++ quoteSq ("Conversions") ++ " cannot be negative.")
          ∈ crossMetricChecks day) ∧
     (day.metrics ("LINK CLICKS") < 0 →
        ("Date " ++ day.date ++ ": " ++ quoteSq ("LINK CLICKS") ++ " cannot be negative.")
          ∈ crossMetricChecks day) ∧
     (day.metrics ("REACH") < 0 →
        ("Date " ++ day.date ++ ": " ++ quoteSq ("REACH") ++ " cannot be negative.")
          ∈ crossMetricChecks day) ∧
     (day.metrics ("AD FREQUENCY") < 0 →
        ("Date " ++ day.date ++ ": " ++ quoteSq ("AD FREQUENCY") ++ " cannot be negative.")
          ∈ crossMetricChecks day) ∧
     (day.metrics ("LINK CLICKS") > 0 ∧ day.metrics ("REACH") > 0 ∧
        day.metrics ("LINK CLICKS") > day.metrics ("REACH") →
        ("Date " ++ day.date ++ ": Logical error - " ++ quoteSq ("LINK CLICKS") ++ " (" ++
          toString (day.metrics ("LINK CLICKS")) ++ ") exceed " ++ quoteSq ("REACH") ++
          " (" ++ toString (day.metrics ("REACH")) ++ ").")
          ∈ crossMetricChecks day) ∧
     (day.metrics ("CTR") < 0 ∨ day.metrics ("CTR") > 1 →
        ("Date " ++ day.date ++ ": " ++ quoteSq ("CTR") ++ " (" ++
          toString (day.metrics ("CTR")) ++
          ") is outside a plausible decimal range (0-1).")
          ∈ crossMetricChecks day) ∧
     (day.metrics ("ROAS") < 0 →
        ("Date " ++ day.date ++ ": " ++ quoteSq ("ROAS") ++ " (" ++
          toString (day.metrics ("ROAS")) ++ ") cannot be negative.")
          ∈ crossMetricChecks day)) ∧
    (specCrossFieldViolation day ↔ crossMetricChecks day ≠ []) ∧
    (∀ msg ∈ crossMetricChecks day, ∃ rest, msg = "Date " ++ day.date ++ rest) ∧
    ((∃ d ∈ parsedDailyData text, specCrossFieldViolation d) →
      ∃ e, parseCSV text stage = Except.error e) := by
  refine ⟨⟨?_, ?_, ?_, ?_, ?_, ?_, ?_, ?_⟩,
    (crossMetricChecks_ne_nil_iff day).symm, ?_, ?_⟩
  · intro h; simp [crossMetricChecks, h]
  · intro h; simp [crossMetricChecks, h]
  · intro h; simp [crossMetricChecks, h]
  · intro h; simp [crossMetricChecks, h]
  · intro h; simp [crossMetricChecks, h]
  · intro h; simp [crossMetricChecks, h.1, h.2.1, h.2.2]
  · intro h; simp [crossMetricChecks, h]
  · intro h; simp [crossMetricChecks, h]
  · intro msg hmsg
    simp only [crossMetricChecks, List.mem_append] at hmsg
    rcases hmsg with (((((((h | h) | h) | h) | h) | h) | h) | h) <;>
      (obtain rfl := mem_ite_singleton h
       simp only [String.append_assoc]
       exact ⟨_, rfl⟩)
  · rintro ⟨d, hd, hviol⟩
    have hcc : crossMetricChecks d ≠ [] := (crossMetricChecks_ne_nil_iff d).mpr hviol
    have hre : recordedErrors text ≠ [] := by
      unfold parsedDailyData at hd
      unfold recordedErrors
      cases hp : parsePhase1 text with
      | error e => rw [hp] at hd; exact absurd hd (List.not_mem_nil d)
      | ok out =>
        obtain ⟨mn, daily, errs⟩ := out
        rw [hp] at hd
        obtain ⟨rowErrs, herrs⟩ := parsePhase1_errors_shape text mn daily errs hp
        rw [herrs]
        intro h0
        rcases List.append_eq_nil.mp h0 with ⟨-, hflat⟩
        obtain ⟨msg, hmsg⟩ := List.exists_mem_of_ne_nil _ hcc
        have : msg ∈ (daily.map crossMetricChecks).flatten :=
          List.mem_flatten.mpr ⟨crossMetricChecks d, List.mem_map_of_mem _ hd, hmsg⟩
        rw [hflat] at this
        exact absurd this (List.not_mem_nil msg)
    exact ⟨validationFailureMsg (recordedErrors text),
      parseCSV_error_of_recordedErrors text stage hre⟩

/-- Witness for C8: the clicks-exceed-reach row is a violation, its check
list is non-empty, and the parse fails. -/
theorem cross_field_violation_checks_witness :
    (crossMetricChecks ((parsedDailyData clicksExceedReachText).headD emptyEntry) ≠ []) ∧
    ∃ e, parseCSV clicksExceedReachText .TOF = Except.error e := by
  have hviol : specCrossFieldViolation
      ((parsedDailyData clicksExceedReachText).headD emptyEntry) := by decide
  have hne : (parsedDailyData clicksExceedReachText).isEmpty = false := by decide
  have hnil : parsedDailyData clicksExceedReachText ≠ [] := by
    intro h0
    rw [h0] at hne
    exact absurd hne (by decide)
  have hmem : (parsedDailyData clicksExceedReachText).headD emptyEntry ∈
      parsedDailyData clicksExceedReachText := by
    cases hl : parsedDailyData clicksExceedReachText with
    | nil => exact absurd hl hnil
    | cons a l => simp
  refine ⟨?_, (cross_field_violation_checks
      ((parsedDailyData clicksExceedReachText).headD emptyEntry)
      clicksExceedReachText .TOF).2.2.2 ⟨_, hmem, hviol⟩⟩
  exact ((cross_field_violation_checks
      ((parsedDailyData clicksExceedReachText).headD emptyEntry)
      clicksExceedReachText .TOF).2.1).mp hviol

/-- The `rowHasValidMetricData` flag comes out true exactly when it was
already true or some remaining metric field parses as a number. -/
theorem parseRowMetricsGo_flag (dateStr : String) (parts : List String) :
    ∀ (names : List String) (colIndex : ℕ) (f : String → ℚ) (errs : List String) (hv : Bool),
      ((parseRowMetricsGo dateStr parts names colIndex f errs hv).2.2 = true ↔
        (hv = true ∨ ∃ j, j < names.length ∧
          (jsParseFloat (parts.getD (colIndex + 1 + j) "")).isSome = true)) := by
  intro names
  induction names with
  | nil =>
    intro colIndex f errs hv
    simp [parseRowMetricsGo]
  | cons n rest ih =>
    intro colIndex f errs hv
    rw [parseRowMetricsGo]
    cases hpf : jsParseFloat (parts.getD (colIndex + 1) "") with
    | some v =>
      simp only [hpf]
      rw [ih]
      constructor
      · intro _
        refine Or.inr ⟨0, Nat.succ_pos rest.length, ?_⟩
        show (jsParseFloat (parts.getD (colIndex + 1) "")).isSome = true
        rw [hpf]
        rfl
      · intro _
        left
        rfl
    | none =>
      simp only [hpf]
      split <;>
        (rw [ih]
         constructor
         · rintro (hhv | ⟨j, hj, hP⟩)
           · exact Or.inl hhv
           · refine Or.inr ⟨j + 1, by simp only [List.length_cons]; omega, ?_⟩
             have heq : colIndex + 1 + (j + 1) = colIndex + 1 + 1 + j := by omega
             rw [heq]
             exact hP
         · rintro (hhv | ⟨j, hj, hP⟩)
           · exact Or.inl hhv
           · rcases j with _ | j
             · simp only [Nat.add_zero] at hP
               rw [hpf] at hP
               exact absurd hP (by simp)
             · refine Or.inr ⟨j, by simp only [List.length_cons] at hj; omega, ?_⟩
               have heq : colIndex + 1 + 1 + j = colIndex + 1 + (j + 1) := by omega
               rw [heq]
               exact hP)

/-- When every remaining metric field is the empty string, the metric
loop records no error and leaves the validity flag unchanged. -/
theorem parseRowMetricsGo_all_empty (dateStr : String) (parts : List String) :
    ∀ (names : List String) (colIndex : ℕ) (f : String → ℚ) (errs : List String) (hv : Bool),
      (∀ j, j < names.length → parts.getD (colIndex + 1 + j) "" = "") →
      (parseRowMetricsGo dateStr parts names colIndex f errs hv).2.1 = errs ∧
      (parseRowMetricsGo dateStr parts names colIndex f errs hv).2.2 = hv := by
  intro names
  induction names with
  | nil => intro colIndex f errs hv _; exact ⟨rfl, rfl⟩
  | cons n rest ih =>
    intro colIndex f errs hv hall
    have h0 : parts.getD (colIndex + 1) "" = "" := by
      have hx := hall 0 (Nat.succ_pos rest.length)
      simpa using hx
    have hjs : jsParseFloat "" = none := by decide
    rw [parseRowMetricsGo]
    simp only [h0, hjs, ne_eq, not_true_eq_false, if_false]
    exact ih (colIndex + 1) (Function.update f n 0) errs hv (fun j hj => by
      have heq : colIndex + 1 + 1 + j = colIndex + 1 + (j + 1) := by omega
      rw [heq]
      exact hall (j + 1) (by simp only [List.length_cons] at hj ⊢; omega))

/-- C10: a data row with the correct column count whose metric fields are
all empty strings is dropped silently — no entry, no recorded error —
and in general a row yields an entry exactly when at least one metric
field parses as a number; a silently dropped row contributes nothing to
the validated sequence. -/
theorem empty_metric_rows_excluded (rawHeaderCount : ℕ) (metricNames : List String)
    (rowIndex : ℕ) (line : String)
    (hlen : ((jsSplit ',' line).map jsTrim).length = rawHeaderCount) :
    ((∀ j, j < metricNames.length → ((jsSplit ',' line).map jsTrim).getD (j + 1) "" = "") →
      parseDataRow rawHeaderCount metricNames rowIndex line = (none, [])) ∧
    ((parseDataRow rawHeaderCount metricNames rowIndex line).1.isSome = true ↔
      ∃ j, j < metricNames.length ∧
        (jsParseFloat (((jsSplit ',' line).map jsTrim).getD (j + 1) "")).isSome = true) ∧
    (∀ (rest : List String) (ri : ℕ),
      parseDataRow rawHeaderCount metricNames ri line = (none, []) →
      processRows rawHeaderCount metricNames (line :: rest) ri =
        processRows rawHeaderCount metricNames rest (ri + 1)) := by
  refine ⟨?_, ?_, ?_⟩
  · intro hempty
    have hidx : ∀ j, j < metricNames.length →
        ((jsSplit ',' line).map jsTrim).getD (0 + 1 + j) "" = "" := by
      intro j hj
      have heq : 0 + 1 + j = j + 1 := by omega
      rw [heq]
      exact hempty j hj
    obtain ⟨he, hf⟩ := parseRowMetricsGo_all_empty
      (((jsSplit ',' line).map jsTrim).headD "") ((jsSplit ',' line).map jsTrim)
      metricNames 0 (fun _ => 0) [] false hidx
    simp only [parseDataRow]
    split
    · rfl
    · rw [if_neg (by simp [hlen])]
      rw [he, hf]
      simp
  · simp only [parseDataRow]
    split
    · rename_i hskip
      constructor
      · intro h; exact absurd h (by simp)
      · rintro ⟨j, hj, hP⟩
        have hgd : ((jsSplit ',' line).map jsTrim).getD (j + 1) "" = "" := by
          rcases hskip with h0 | hall
          · exact List.getD_eq_default _ _ (by omega)
          · by_cases hjl : j + 1 < ((jsSplit ',' line).map jsTrim).length
            · rw [List.getD_eq_getElem _ _ hjl]
              exact hall _ (List.getElem_mem hjl)
            · exact List.getD_eq_default _ _ (by omega)
        rw [hgd] at hP
        exact absurd hP (by decide)
    · rw [if_neg (by simp [hlen])]
      have hflag := parseRowMetricsGo_flag
        (((jsSplit ',' line).map jsTrim).headD "") ((jsSplit ',' line).map jsTrim)
        metricNames 0 (fun _ => 0) [] false
      cases hB : (parseRowMetricsGo (((jsSplit ',' line).map jsTrim).headD "")
          ((jsSplit ',' line).map jsTrim) metricNames 0 (fun _ => 0) [] false).2.2 with
      | true =>
        rw [hB] at hflag
        rcases hflag.mp rfl with h | ⟨j, hj, hP⟩
        · exact absurd h (by simp)
        · simp only [hB, if_true]
          constructor
          · intro _
            refine ⟨j, hj, ?_⟩
            have heq : j + 1 = 0 + 1 + j := by omega
            rw [heq]
            exact hP
          · intro _
            simp
      | false =>
        rw [hB] at hflag
        simp only [hB, if_false]
        constructor
        · intro h; exact absurd h (by simp)
        · rintro ⟨j, hj, hP⟩
          have : (false : Bool) = true := hflag.mpr (Or.inr ⟨j, hj, by
            have heq : 0 + 1 + j = j + 1 := by omega
            rw [heq]
            exact hP⟩)
          exact absurd this (by simp)
  · intro rest ri h
    rw [processRows, h]
    simp

/-- Witness for C10: the all-empty-metrics row is dropped without an
error and contributes nothing to the sequence. -/
theorem empty_metric_rows_excluded_witness :
    parseDataRow 13 templateMetricNames 0 emptyMetricsRow = (none, []) ∧
    processRows 13 templateMetricNames [emptyMetricsRow] 0 =
      processRows 13 templateMetricNames [] 1 := by
  have h := empty_metric_rows_excluded 13 templateMetricNames 0 emptyMetricsRow (by decide)
  have h1 := h.1 (by decide)
  exact ⟨h1, h.2.2 [] 0 h1⟩

end Advantage
